import Mathlib

/-!
Verification of the UAE property finder core (src/notebooks/app.py): the
pandas loading/normalization pipeline `load_and_clean_data` and the four
search functions `search_name`, `search_id`, `search_phone`,
`search_property`, shallowly embedded in Lean.

Conventions of the embedding:
* A pandas cell that may be missing (NaN) is an `Option`; machine floats are
  modelled as exact rationals.
* A pandas comparison `series == key` is false on missing cells, and false on
  every row when the scalar key itself is None (pandas null-scalar
  comparison semantics).
* `astype(str)` renders a missing cell as the text "nan", as pandas does.
* Python truthiness guards in `search_property` (`if size_sqmt:` and so on)
  skip the corresponding filter when the argument is None, a zero number or
  an empty string; a supplied date is always truthy.
* The raw CSV table for the loader is a list of named columns; renaming,
  column access (KeyError on a missing name) and column assignment follow
  the pandas DataFrame operations used in the source.
* `pd.to_datetime` applied to one cell is modelled by an arbitrary
  `parseDate : String → Option Int` argument (timestamps are opaque
  integers): a string cell parses or raises, numeric and timestamp cells
  always convert, NaN stays missing (NaT).
-/

namespace UAE

/-- One row of the canonical (normalized) table, with the fields the search
functions read.  `none` models a missing (NaN) cell. -/
structure Row where
  reg_date : Option Int
  procedure_value : Option ℚ
  master_project : Option String
  master_project_land : Option String
  project : Option String
  project_land : Option String
  building_no : Option String
  building_name_en : Option String
  size_sqmt : Option ℚ
  size_sqft : Option ℚ
  unit_number : Option String
  name_en : Option String
  mobile : Option String
  id_number : Option String
  uae_id_number : Option String
deriving DecidableEq

/-- pandas `series == scalar` on one string cell: false when the cell is
missing, and false everywhere when the scalar is None. -/
def pandasEq (cell : Option String) (key : Option String) : Bool :=
  match key with
  | none => false
  | some k =>
    match cell with
    | some c => decide (c = k)
    | none => false

/-- pandas `astype(str)` on one possibly-missing string cell: a missing
value (NaN) becomes the text "nan". -/
def cellToStr : Option String → String
  | some s => s
  | none => "nan"

/-- Python `str.endswith`, on the character sequences of the two strings. -/
def pyEndsWith (s p : String) : Bool :=
  List.isSuffixOf p.data s.data

/-- The identity-stage disjunction of `search_property` (app.py lines 77-83):
the scalar `property_name` compared against the five identity columns. -/
def idMatch (property_name : Option String) (r : Row) : Bool :=
  pandasEq r.master_project property_name ||
  pandasEq r.master_project_land property_name ||
  pandasEq r.project property_name ||
  pandasEq r.project_land property_name ||
  pandasEq r.building_name_en property_name

/-- app.py `search_name`: rows whose `name_en` equals `name`. -/
def search_name (name : String) (df : List Row) : List Row :=
  df.filter (fun r => decide (r.name_en = some name))

/-- app.py `search_id`: rows whose `id_number` or `uae_id_number` equals the
key. -/
def search_id (i : String) (df : List Row) : List Row :=
  df.filter (fun r => decide (r.id_number = some i) || decide (r.uae_id_number = some i))

/-- app.py `search_phone`: rows whose `mobile` equals the key. -/
def search_phone (mobile : String) (df : List Row) : List Row :=
  df.filter (fun r => decide (r.mobile = some mobile))

/-- app.py `search_property`: the identity-stage OR over five columns
followed by the four optional refinement filters, each guarded by Python
truthiness of its argument (`if size_sqmt:` ...). -/
def search_property (property_name : Option String) (df : List Row)
    (size_sqmt : Option ℚ) (size_sqft : Option ℚ)
    (transaction_date : Option Int) (unit_number : Option String) : List Row :=
  let m0 := df.filter (fun r => idMatch property_name r)
  let m1 :=
    match size_sqmt with
    | some v => if v = 0 then m0 else m0.filter (fun r => decide (r.size_sqmt = some v))
    | none => m0
  let m2 :=
    match size_sqft with
    | some v => if v = 0 then m1 else m1.filter (fun r => decide (r.size_sqft = some v))
    | none => m1
  let m3 :=
    match transaction_date with
    | some d => m2.filter (fun r => decide (r.reg_date = some d))
    | none => m2
  match unit_number with
  | some u => if u = "" then m3 else m3.filter (fun r => pyEndsWith (cellToStr r.unit_number) u)
  | none => m3

/-- The identity stage of `search_property`, as a stand-alone function. -/
def identityStage (property_name : Option String) (df : List Row) : List Row :=
  df.filter (fun r => idMatch property_name r)

/-- The `size_sqmt` refinement stage (`if size_sqmt: ...`). -/
def sqmtStage (size_sqmt : Option ℚ) (l : List Row) : List Row :=
  match size_sqmt with
  | some v => if v = 0 then l else l.filter (fun r => decide (r.size_sqmt = some v))
  | none => l

/-- The `size_sqft` refinement stage (`if size_sqft: ...`). -/
def sqftStage (size_sqft : Option ℚ) (l : List Row) : List Row :=
  match size_sqft with
  | some v => if v = 0 then l else l.filter (fun r => decide (r.size_sqft = some v))
  | none => l

/-- The `transaction_date` refinement stage (`if transaction_date: ...`). -/
def dateStage (transaction_date : Option Int) (l : List Row) : List Row :=
  match transaction_date with
  | some d => l.filter (fun r => decide (r.reg_date = some d))
  | none => l

/-- The `unit_number` refinement stage (`if unit_number: ...` with
`astype(str).str.endswith`). -/
def unitStage (unit_number : Option String) (l : List Row) : List Row :=
  match unit_number with
  | some u => if u = "" then l else l.filter (fun r => pyEndsWith (cellToStr r.unit_number) u)
  | none => l

/-! The loader.  A raw/canonical table is a list of named columns of cells,
mirroring the pandas DataFrame operations `rename`, column read (KeyError
when absent), column write, `pd.to_datetime` and `Series.apply`. -/

/-- A cell of a raw or canonical table column. -/
inductive Cell where
  | str (s : String)
  | num (q : ℚ)
  | ts (t : Int)
  | na
deriving DecidableEq

/-- A table: named columns of cells. -/
structure PTable where
  cols : List (String × List Cell)
deriving DecidableEq

/-- The errors the loading pipeline can produce: `keyError` for a column
access on an absent name, `parseError` for an unparseable date
(`pd.to_datetime` raising), `typeError` for arithmetic on a non-numeric
cell. -/
inductive PyErr where
  | keyError (c : String)
  | parseError
  | typeError
deriving DecidableEq

/-- The `rename_map` of app.py lines 23-45. -/
def rename_map : List (String × String) :=
  [("Regis", "reg_date"), ("ProcedureValue", "procedure_value"),
   ("Master Project", "master_project"), ("Master Project Land", "master_project_land"),
   ("Project", "project"), ("Project Lnd", "project_land"),
   ("Building No", "building_no"), ("BuildingNameEn", "building_name_en"),
   ("Size", "size_sqmt"), ("UnitNumber", "unit_number"),
   ("DmSubNo", "dm_sub_no"), ("PropertyTypeEn", "property_type_en"),
   ("LandNumber", "land_number"), ("ProcedurePartyTypeNameEn", "procedure_type"),
   ("NameEn", "name_en"), ("Mobile", "mobile"),
   ("ProcedureNameEn", "procedure_name"), ("CountryNameEn", "country"),
   ("IdNumber", "id_number"), ("UaeIdNumber", "uae_id_number"),
   ("BirthDate", "birth_date")]

/-- Renaming of one header: recognized names map to their canonical name,
unrecognized names pass through (pandas `rename` semantics). -/
def renameOne (c : String) : String :=
  match rename_map.lookup c with
  | some n => n
  | none => c

/-- `df.rename(columns=rename_map)`. -/
def renameCols (t : PTable) : PTable :=
  ⟨t.cols.map (fun p => (renameOne p.1, p.2))⟩

/-- First column with the given name, if any. -/
def lookupCol (c : String) : List (String × List Cell) → Option (List Cell)
  | [] => none
  | p :: ps => if p.1 = c then some p.2 else lookupCol c ps

/-- `df[c]` as a total lookup (the caller turns `none` into a KeyError). -/
def getCol (t : PTable) (c : String) : Option (List Cell) :=
  lookupCol c t.cols

/-- `df[c] = v`: replace the column when the name exists, append it
otherwise. -/
def setCol (t : PTable) (c : String) (v : List Cell) : PTable :=
  if t.cols.any (fun p => decide (p.1 = c)) then
    ⟨t.cols.map (fun p => if p.1 = c then (c, v) else p)⟩
  else
    ⟨t.cols ++ [(c, v)]⟩

/-- The column names of a table. -/
def colNames (t : PTable) : List String :=
  t.cols.map Prod.fst

/-- Floor of a rational, written out computably (the denominator of a
normalized rational is positive, and `Int.fdiv` is floor division). -/
def ratFloor (q : ℚ) : Int :=
  Int.fdiv q.num q.den

/-- Round-half-to-even to an integer, as Python `round` does, written on the
numerator and denominator: with `f` the floor, `r2 = 2 * den * (q - f)`
compares the fractional part against one half. -/
def roundHalfEven (q : ℚ) : Int :=
  let f := ratFloor q
  let r2 := 2 * (q.num - f * q.den)
  if r2 < (q.den : Int) then f
  else if (q.den : Int) < r2 then f + 1
  else if f % 2 = 0 then f else f + 1

/-- Python `round(x, 2)` on the rational model of a float: scale by one
hundred, round half-to-even, scale back (`mkRat` is the computable spelling
of the division by one hundred). -/
def pyRound2 (q : ℚ) : ℚ :=
  mkRat (roundHalfEven (mkRat (q.num * 100) q.den)) 100

/-- The conversion factor 10.76391 of app.py line 59. -/
def sqftFactor : ℚ := 1076391 / 100000

/-- Multiplication by the conversion factor, written computably on the
numerator and denominator; `mulFactor_eq_mul` below proves it equal to
`q * sqftFactor`. -/
def mulFactor (q : ℚ) : ℚ :=
  mkRat (q.num * 1076391) (q.den * 100000)

/-- `pd.to_datetime` on one cell of the registration-date column: a string
parses through `parseDate` or raises, a number always converts (epoch), a
timestamp stays, NaN becomes NaT. -/
def toDatetimeCell (parseDate : String → Option Int) : Cell → Except PyErr Cell
  | Cell.str s =>
    match parseDate s with
    | some t => Except.ok (Cell.ts t)
    | none => Except.error PyErr.parseError
  | Cell.num q => Except.ok (Cell.ts (ratFloor q))
  | Cell.ts t => Except.ok (Cell.ts t)
  | Cell.na => Except.ok Cell.na

/-- A registration-date cell on which `pd.to_datetime` raises: a string the
date parser rejects. -/
def badDate (parseDate : String → Option Int) : Cell → Bool
  | Cell.str s => (parseDate s).isNone
  | _ => false

/-- `lambda x: round(x * 10.76391, 2)` on one `size_sqmt` cell:
`round(nan * k, 2)` is nan, arithmetic on a non-number raises. -/
def sqftCell : Cell → Except PyErr Cell
  | Cell.num q => Except.ok (Cell.num (pyRound2 (mulFactor q)))
  | Cell.na => Except.ok Cell.na
  | Cell.str _ => Except.error PyErr.typeError
  | Cell.ts _ => Except.error PyErr.typeError

/-- Apply a cell operation across a column, stopping at the first raised
error (`pd.to_datetime` / `Series.apply`). -/
def mapCells (f : Cell → Except PyErr Cell) : List Cell → Except PyErr (List Cell)
  | [] => Except.ok []
  | c :: cs =>
    match f c with
    | Except.error e => Except.error e
    | Except.ok c2 =>
      match mapCells f cs with
      | Except.error e => Except.error e
      | Except.ok cs2 => Except.ok (c2 :: cs2)

/-- app.py line 56: `df['reg_date'] = pd.to_datetime(df['reg_date'])` on the
renamed table (KeyError when the column is absent). -/
def loadStep2 (parseDate : String → Option Int) (t : PTable) : Except PyErr PTable :=
  match getCol t "reg_date" with
  | none => Except.error (PyErr.keyError "reg_date")
  | some rc =>
    match mapCells (toDatetimeCell parseDate) rc with
    | Except.error e => Except.error e
    | Except.ok rc2 => Except.ok (setCol t "reg_date" rc2)

/-- app.py line 59: `df['size_sqft'] = df['size_sqmt'].apply(lambda x:
round(x * 10.76391, 2))` (KeyError when `size_sqmt` is absent). -/
def loadStep3 (t : PTable) : Except PyErr PTable :=
  match getCol t "size_sqmt" with
  | none => Except.error (PyErr.keyError "size_sqmt")
  | some sc =>
    match mapCells sqftCell sc with
    | Except.error e => Except.error e
    | Except.ok sc2 => Except.ok (setCol t "size_sqft" sc2)

/-- app.py `load_and_clean_data`: a missing source file is caught and
returned as `none` (the spec's LoadError signal); otherwise rename, parse
the date column, derive `size_sqft`; any raised error propagates. -/
def load_and_clean_data (parseDate : String → Option Int) (src : Option PTable) :
    Except PyErr (Option PTable) :=
  match src with
  | none => Except.ok none
  | some df =>
    match loadStep2 parseDate (renameCols df) with
    | Except.error e => Except.error e
    | Except.ok df2 =>
      match loadStep3 df2 with
      | Except.error e => Except.error e
      | Except.ok df3 => Except.ok (some df3)

/-! Concrete rows and tables used to instantiate the claim theorems. -/

/-- A row with every cell missing. -/
def emptyRow : Row :=
  ⟨none, none, none, none, none, none, none, none, none, none, none, none, none, none, none⟩

/-- A row of project "P" with a 5 square-metre size. -/
def rowP : Row :=
  ⟨none, none, some "P", none, none, none, none, none, some 5, none, none, none, none, none, none⟩

/-- A row of project "P" with unit number "A-3-0601". -/
def rowU : Row :=
  ⟨none, none, some "P", none, none, none, none, none, none, none, some "A-3-0601", none, none, none, none⟩

/-- A row whose only identity-like value is `building_no = "P1"`. -/
def rowB : Row :=
  ⟨none, none, none, none, none, none, some "P1", none, none, none, none, none, none, none, none⟩

/-- A row whose `project` column holds the empty string. -/
def rowE : Row :=
  ⟨none, none, none, none, some "", none, none, none, none, none, none, none, none, none, none⟩

/-- A row with `id_number = "X"` and `uae_id_number = "Y"`. -/
def rowN : Row :=
  ⟨none, none, none, none, none, none, none, none, none, none, none, none, none, some "X", some "Y"⟩

/-- A concrete date parser accepting a single date string. -/
def pd0 : String → Option Int :=
  fun s => if s = "2020-01-15" then some 18276 else none

/-- A raw table with a parseable Regis column and a numeric Size column. -/
def rawOk : PTable :=
  ⟨[("Regis", [Cell.str "2020-01-15"]), ("Size", [Cell.num 100])]⟩

/-- A raw table lacking the Regis column. -/
def rawNoReg : PTable :=
  ⟨[("Size", [Cell.num 100])]⟩

/-- The canonical table `load_and_clean_data pd0 (some rawOk)` produces. -/
def tOk : PTable :=
  ⟨[("reg_date", [Cell.ts 18276]), ("size_sqmt", [Cell.num 100]),
    ("size_sqft", [Cell.num (mkRat 107639 100)])]⟩

/-! Helper lemmas about the search functions. -/

theorem pandasEq_some_iff (c : Option String) (k : String) :
    pandasEq c (some k) = true ↔ c = some k := by
  cases c <;> simp [pandasEq]

theorem idMatch_none (r : Row) : idMatch none r = false := rfl

theorem idMatch_some_iff (k : String) (r : Row) :
    idMatch (some k) r = true ↔
      (r.master_project = some k ∨ r.master_project_land = some k ∨
       r.project = some k ∨ r.project_land = some k ∨ r.building_name_en = some k) := by
  simp only [idMatch, Bool.or_eq_true, pandasEq_some_iff]
  tauto

theorem idMatch_some_eq_decide (k : String) (r : Row) :
    idMatch (some k) r =
      decide (r.master_project = some k ∨ r.master_project_land = some k ∨
        r.project = some k ∨ r.project_land = some k ∨ r.building_name_en = some k) := by
  rw [Bool.eq_iff_iff, decide_eq_true_eq]
  exact idMatch_some_iff k r

theorem search_property_stages (p : Option String) (df : List Row) (a b : Option ℚ)
    (c : Option Int) (d : Option String) :
    search_property p df a b c d =
      unitStage d (dateStage c (sqftStage b (sqmtStage a (identityStage p df)))) := rfl

theorem sqmtStage_nil (a : Option ℚ) : sqmtStage a [] = [] := by
  cases a with
  | none => rfl
  | some v => simp [sqmtStage]

theorem sqftStage_nil (b : Option ℚ) : sqftStage b [] = [] := by
  cases b with
  | none => rfl
  | some v => simp [sqftStage]

theorem dateStage_nil (c : Option Int) : dateStage c [] = [] := by
  cases c with
  | none => rfl
  | some d => rfl

theorem unitStage_nil (d : Option String) : unitStage d [] = [] := by
  cases d with
  | none => rfl
  | some u => simp [unitStage]

/-! The claims about the search functions. -/

/-- Claim C1: the identity stage of `search_property` keeps exactly the rows
where the name equals one of the five columns `master_project`,
`master_project_land`, `project`, `project_land`, `building_name_en`; a row
whose `building_no` equals the name but none of those five do is not in the
result. -/
theorem claim1_identity_or_five_columns (df : List Row) (name : String) :
    search_property (some name) df none none none none =
      df.filter (fun r =>
        decide (r.master_project = some name ∨ r.master_project_land = some name ∨
          r.project = some name ∨ r.project_land = some name ∨
          r.building_name_en = some name)) ∧
    ∀ r ∈ df, r.building_no = some name →
      ¬(r.master_project = some name ∨ r.master_project_land = some name ∨
        r.project = some name ∨ r.project_land = some name ∨
        r.building_name_en = some name) →
      r ∉ search_property (some name) df none none none none := by
  constructor
  · exact congrArg (fun f => List.filter f df)
      (funext fun r => idMatch_some_eq_decide name r)
  · intro r hr hb hnot hmem
    have h2 : r ∈ df ∧ idMatch (some name) r = true := List.mem_filter.mp hmem
    exact hnot ((idMatch_some_iff name r).mp h2.2)

/-- Witness for C1 at a concrete row whose only identity-like value is
`building_no`. -/
theorem claim1_witness : rowB ∉ search_property (some "P1") [rowB] none none none none :=
  (claim1_identity_or_five_columns [rowB] "P1").2 rowB (by simp) (by decide) (by decide)

/-- Counterexample to C2 as stated: the caller explicitly supplies
`size_sqmt = 0`, yet the filter is skipped (Python truthiness), so the
surviving subset is not the prior stage filtered by the size predicate. -/
theorem claim2_counterexample :
    search_property (some "P") [rowP] (some 0) none none none ≠
      (identityStage (some "P") [rowP]).filter
        (fun r => decide (r.size_sqmt = some (0 : ℚ))) := by decide

/-- Claim C2 (amended): each refinement filter runs if and only if the
supplied value is truthy in Python — a nonzero number for the size filters,
any date for the date filter, a nonempty string for the unit filter; an
enabled filter keeps exactly the rows of the prior stage satisfying its
predicate (exact equality for the sizes), and a missing or falsy argument
leaves the prior stage unchanged. -/
theorem claim2_truthiness_filters (p : Option String) (df : List Row) (a b : Option ℚ)
    (c : Option Int) (d : Option String) :
    search_property p df a b c d =
      unitStage d (dateStage c (sqftStage b (sqmtStage a (identityStage p df)))) ∧
    (∀ (v : ℚ) (l : List Row), v ≠ 0 →
      sqmtStage (some v) l = l.filter (fun r => decide (r.size_sqmt = some v))) ∧
    (∀ l : List Row, sqmtStage none l = l) ∧
    (∀ l : List Row, sqmtStage (some 0) l = l) ∧
    (∀ (v : ℚ) (l : List Row), v ≠ 0 →
      sqftStage (some v) l = l.filter (fun r => decide (r.size_sqft = some v))) ∧
    (∀ l : List Row, sqftStage none l = l) ∧
    (∀ l : List Row, sqftStage (some 0) l = l) ∧
    (∀ (t : Int) (l : List Row),
      dateStage (some t) l = l.filter (fun r => decide (r.reg_date = some t))) ∧
    (∀ l : List Row, dateStage none l = l) ∧
    (∀ (u : String) (l : List Row), u ≠ "" →
      unitStage (some u) l = l.filter (fun r => pyEndsWith (cellToStr r.unit_number) u)) ∧
    (∀ l : List Row, unitStage none l = l) ∧
    (∀ l : List Row, unitStage (some "") l = l) := by
  refine ⟨rfl, ?_, fun l => rfl, ?_, ?_, fun l => rfl, ?_, fun t l => rfl, fun l => rfl,
    ?_, fun l => rfl, ?_⟩
  · intro v l hv
    simp [sqmtStage, hv]
  · intro l
    simp [sqmtStage]
  · intro v l hv
    simp [sqftStage, hv]
  · intro l
    simp [sqftStage]
  · intro u l hu
    simp [unitStage, hu]
  · intro l
    simp [unitStage]

/-- Witness for C2 (amended) at a concrete nonzero size. -/
theorem claim2_witness :
    sqmtStage (some 5) [rowP] = [rowP].filter (fun r => decide (r.size_sqmt = some (5 : ℚ))) :=
  (claim2_truthiness_filters none [] none none none none).2.1 5 [rowP] (by norm_num)

/-- Counterexample to C3 as stated: the row with `unit_number "A-3-0601"`
does not match a unit filter of "06" (its text ends in "01"), though the
claim says it must. -/
theorem claim3_counterexample :
    rowU.unit_number = some "A-3-0601" ∧
    search_property (some "P") [rowU] none none none (some "06") = [] := by
  exact ⟨rfl, by decide⟩

/-- Claim C3 (amended): for a nonempty unit filter the surviving rows are
exactly those of the identity stage whose `unit_number`, coerced to text
with missing values rendered "nan", ends with the filter value;
"A-3-0601" matches "0601" but neither "06" nor "601A"; a row with a missing
`unit_number` behaves exactly as the text "nan", so it is excluded unless
the filter value is a suffix of "nan". -/
theorem claim3_unit_suffix (p : Option String) (df : List Row) (u : String) (hu : u ≠ "") :
    search_property p df none none none (some u) =
      (search_property p df none none none none).filter
        (fun r => pyEndsWith (cellToStr r.unit_number) u) ∧
    cellToStr none = "nan" ∧
    (∀ r : Row, r.unit_number = none →
      pyEndsWith (cellToStr r.unit_number) u = pyEndsWith "nan" u) ∧
    pyEndsWith "A-3-0601" "0601" = true ∧
    pyEndsWith "A-3-0601" "06" = false ∧
    pyEndsWith "A-3-0601" "601A" = false := by
  refine ⟨?_, rfl, ?_, by decide, by decide, by decide⟩
  · show unitStage (some u) (identityStage p df) =
      (identityStage p df).filter (fun r => pyEndsWith (cellToStr r.unit_number) u)
    simp [unitStage, hu]
  · intro r h
    rw [h]
    rfl

/-- Witness for C3 (amended) at the concrete row and filter "0601". -/
theorem claim3_witness :
    search_property (some "P") [rowU] none none none (some "0601") =
      (search_property (some "P") [rowU] none none none none).filter
        (fun r => pyEndsWith (cellToStr r.unit_number) "0601") :=
  (claim3_unit_suffix (some "P") [rowU] "0601" (by decide)).1

/-- Claim C5: `search_id` keeps exactly the rows where `id_number` or
`uae_id_number` equals the key; a row with `id_number x` and
`uae_id_number y` matches key `x` and key `y` but no third key. -/
theorem claim5_id_or (df : List Row) (x y z : String) :
    (∀ i : String, search_id i df =
      df.filter (fun r => decide (r.id_number = some i ∨ r.uae_id_number = some i))) ∧
    (∀ r ∈ df, r.id_number = some x → r.uae_id_number = some y → z ≠ x → z ≠ y →
      r ∈ search_id x df ∧ r ∈ search_id y df ∧ r ∉ search_id z df) := by
  constructor
  · intro i
    apply congrArg (fun f => List.filter f df)
    funext r
    exact (Bool.decide_or _ _).symm
  · intro r hr hx hy hzx hzy
    refine ⟨?_, ?_, ?_⟩
    · exact List.mem_filter.mpr ⟨hr, by simp [hx]⟩
    · exact List.mem_filter.mpr ⟨hr, by simp [hy]⟩
    · intro hmem
      have h2 := (List.mem_filter.mp hmem).2
      simp only [Bool.or_eq_true, decide_eq_true_eq] at h2
      rcases h2 with h | h
      · rw [hx] at h
        exact hzx (Option.some.inj h).symm
      · rw [hy] at h
        exact hzy (Option.some.inj h).symm

/-- Witness for C5 at a concrete row with ids "X" and "Y" and foreign key
"Z". -/
theorem claim5_witness :
    rowN ∈ search_id "X" [rowN] ∧ rowN ∈ search_id "Y" [rowN] ∧ rowN ∉ search_id "Z" [rowN] :=
  (claim5_id_or [rowN] "X" "Y" "Z").2 rowN (by simp) rfl rfl (by decide) (by decide)

/-- Claim C6: every refinement stage of `search_property` returns at most as
many rows as it receives, so each enabled filter narrows the
already-narrowed subset, and the whole result is no longer than the
identity stage. -/
theorem claim6_refinement_narrows (p : Option String) (df : List Row) (a b : Option ℚ)
    (c : Option Int) (d : Option String) (l : List Row) :
    (sqmtStage a l).length ≤ l.length ∧
    (sqftStage b l).length ≤ l.length ∧
    (dateStage c l).length ≤ l.length ∧
    (unitStage d l).length ≤ l.length ∧
    search_property p df a b c d =
      unitStage d (dateStage c (sqftStage b (sqmtStage a (identityStage p df)))) ∧
    (search_property p df a b c d).length ≤ (identityStage p df).length := by
  have hmt : ∀ (a : Option ℚ) (l : List Row), (sqmtStage a l).length ≤ l.length := by
    intro a l
    cases a with
    | none => exact le_refl _
    | some v =>
      by_cases hv : v = 0 <;> simp [sqmtStage, hv, List.length_filter_le]
  have hft : ∀ (b : Option ℚ) (l : List Row), (sqftStage b l).length ≤ l.length := by
    intro b l
    cases b with
    | none => exact le_refl _
    | some v =>
      by_cases hv : v = 0 <;> simp [sqftStage, hv, List.length_filter_le]
  have hdt : ∀ (c : Option Int) (l : List Row), (dateStage c l).length ≤ l.length := by
    intro c l
    cases c with
    | none => exact le_refl _
    | some t => simp [dateStage, List.length_filter_le]
  have hut : ∀ (d : Option String) (l : List Row), (unitStage d l).length ≤ l.length := by
    intro d l
    cases d with
    | none => exact le_refl _
    | some u =>
      by_cases hu : u = "" <;> simp [unitStage, hu, List.length_filter_le]
  refine ⟨hmt a l, hft b l, hdt c l, hut d l, rfl, ?_⟩
  rw [search_property_stages]
  exact le_trans (hut _ _) (le_trans (hdt _ _) (le_trans (hft _ _) (hmt _ _)))

/-- Claim C9: none of the four search operations can signal an error (they
are total functions into row lists), and whenever no row satisfies the
relevant predicate the result is the empty list. -/
theorem claim9_empty_result_ok :
    (∀ (n : String) (df : List Row), (∀ r ∈ df, r.name_en ≠ some n) → search_name n df = []) ∧
    (∀ (i : String) (df : List Row),
      (∀ r ∈ df, r.id_number ≠ some i ∧ r.uae_id_number ≠ some i) → search_id i df = []) ∧
    (∀ (ph : String) (df : List Row), (∀ r ∈ df, r.mobile ≠ some ph) → search_phone ph df = []) ∧
    (∀ (p : Option String) (df : List Row) (a b : Option ℚ) (c : Option Int) (d : Option String),
      (∀ r ∈ df, idMatch p r = false) → search_property p df a b c d = []) := by
  refine ⟨?_, ?_, ?_, ?_⟩
  · intro n df h
    simp only [search_name, List.filter_eq_nil_iff]
    intro r hr
    simp [h r hr]
  · intro i df h
    simp only [search_id, List.filter_eq_nil_iff]
    intro r hr
    simp [(h r hr).1, (h r hr).2]
  · intro ph df h
    simp only [search_phone, List.filter_eq_nil_iff]
    intro r hr
    simp [h r hr]
  · intro p df a b c d h
    have h0 : identityStage p df = [] := by
      simp only [identityStage, List.filter_eq_nil_iff]
      intro r hr
      simp [h r hr]
    rw [search_property_stages, h0, sqmtStage_nil, sqftStage_nil, dateStage_nil, unitStage_nil]

/-- Witness for C9: a name matching no row yields the empty result. -/
theorem claim9_witness : search_name "NOBODY" [rowP] = [] :=
  claim9_empty_result_ok.1 "NOBODY" [rowP] (by decide)

/-- Counterexample to C10 as stated: with an empty name, a row carrying an
empty string in the `project` column is returned, so the result is not
always empty. -/
theorem claim10_counterexample :
    search_property (some "") [rowE] none none none none = [rowE] := by decide

/-- Claim C10 (amended): with no property name supplied (None default) the
result is empty for every table and filter configuration; with an
empty-string name the identity stage compares like any other string, so the
result is empty exactly on tables whose five identity columns never hold
the empty string. -/
theorem claim10_none_empty (df : List Row) (a b : Option ℚ) (c : Option Int)
    (d : Option String) :
    search_property none df a b c d = [] ∧
    ((∀ r ∈ df, r.master_project ≠ some "" ∧ r.master_project_land ≠ some "" ∧
        r.project ≠ some "" ∧ r.project_land ≠ some "" ∧ r.building_name_en ≠ some "") →
      search_property (some "") df a b c d = []) := by
  constructor
  · have h0 : identityStage none df = [] := by
      simp [identityStage, idMatch_none]
    rw [search_property_stages, h0, sqmtStage_nil, sqftStage_nil, dateStage_nil, unitStage_nil]
  · intro h
    have h0 : identityStage (some "") df = [] := by
      simp only [identityStage, List.filter_eq_nil_iff]
      intro r hr
      have h2 := h r hr
      simp only [idMatch_some_iff]
      tauto
    rw [search_property_stages, h0, sqmtStage_nil, sqftStage_nil, dateStage_nil, unitStage_nil]

/-- Witness for C10 (amended) at a concrete table with no empty identity
cells. -/
theorem claim10_witness : search_property (some "") [rowP] none none none none = [] :=
  (claim10_none_empty [rowP] none none none none).2 (by decide)

/-! Helper lemmas about the loader. -/

theorem mulFactor_eq_mul (q : ℚ) : mulFactor q = q * sqftFactor := by
  unfold mulFactor sqftFactor
  rw [Rat.mkRat_eq_div]
  push_cast
  rw [← div_mul_div_comm, Rat.num_div_den]

theorem lookupCol_eq_none_iff (c : String) (l : List (String × List Cell)) :
    lookupCol c l = none ↔ ∀ p ∈ l, p.1 ≠ c := by
  induction l with
  | nil => simp [lookupCol]
  | cons p ps ih =>
    by_cases hp : p.1 = c
    · simp [lookupCol, hp]
    · simp [lookupCol, hp, ih]

theorem lookupCol_append (c : String) (l1 l2 : List (String × List Cell)) :
    lookupCol c (l1 ++ l2) =
      (match lookupCol c l1 with
       | some v => some v
       | none => lookupCol c l2) := by
  induction l1 with
  | nil => simp [lookupCol]
  | cons p ps ih =>
    by_cases hp : p.1 = c
    · simp [lookupCol, hp]
    · simp [lookupCol, hp, ih]

theorem getCol_eq_none_of_not_mem (t : PTable) (n : String) (h : n ∉ colNames t) :
    getCol t n = none := by
  apply (lookupCol_eq_none_iff n t.cols).mpr
  intro p hp heq
  exact h (List.mem_map.mpr ⟨p, hp, heq⟩)

theorem getCol_some_mem (t : PTable) (c : String) (v : List Cell)
    (h : getCol t c = some v) : c ∈ colNames t := by
  by_contra hc
  rw [getCol_eq_none_of_not_mem t c hc] at h
  exact Option.noConfusion h

theorem lookupCol_set_self (c : String) (v : List Cell) :
    ∀ l : List (String × List Cell), l.any (fun p => decide (p.1 = c)) = true →
      lookupCol c (l.map (fun p => if p.1 = c then (c, v) else p)) = some v := by
  intro l
  induction l with
  | nil => intro h; simp at h
  | cons p ps ih =>
    intro h
    by_cases hp : p.1 = c
    · simp [lookupCol, hp]
    · simp only [List.map_cons, if_neg hp, lookupCol]
      apply ih
      simp only [List.any_cons, Bool.or_eq_true] at h
      rcases h with h | h
      · exact absurd (of_decide_eq_true h) hp
      · exact h

theorem lookupCol_set_ne (c c2 : String) (v : List Cell) (hne : c2 ≠ c)
    (l : List (String × List Cell)) :
    lookupCol c2 (l.map (fun p => if p.1 = c then (c, v) else p)) = lookupCol c2 l := by
  induction l with
  | nil => rfl
  | cons p ps ih =>
    by_cases hp : p.1 = c
    · have hcc : ¬(c = c2) := fun h => hne h.symm
      have hpc : ¬(p.1 = c2) := by rw [hp]; exact hcc
      simp only [List.map_cons, if_pos hp, lookupCol]
      rw [if_neg hcc, if_neg hpc]
      exact ih
    · by_cases hq : p.1 = c2
      · simp [lookupCol, hp, hq, hne]
      · simp [lookupCol, hp, hq, ih]

theorem getCol_setCol_self (t : PTable) (c : String) (v : List Cell) :
    getCol (setCol t c v) c = some v := by
  unfold setCol getCol
  by_cases h : t.cols.any (fun p => decide (p.1 = c)) = true
  · rw [if_pos h]
    exact lookupCol_set_self c v t.cols h
  · rw [if_neg h]
    have hnone : lookupCol c t.cols = none := by
      apply (lookupCol_eq_none_iff c t.cols).mpr
      intro p hp heq
      exact h (List.any_eq_true.mpr ⟨p, hp, decide_eq_true heq⟩)
    rw [lookupCol_append, hnone]
    simp [lookupCol]

theorem getCol_setCol_ne (t : PTable) (c c2 : String) (v : List Cell) (hne : c2 ≠ c) :
    getCol (setCol t c v) c2 = getCol t c2 := by
  unfold setCol getCol
  by_cases h : t.cols.any (fun p => decide (p.1 = c)) = true
  · rw [if_pos h]
    exact lookupCol_set_ne c c2 v hne t.cols
  · rw [if_neg h]
    rw [lookupCol_append]
    cases hl : lookupCol c2 t.cols with
    | some w => rfl
    | none =>
      have hcc : ¬(c = c2) := fun hx => hne hx.symm
      simp [lookupCol, hcc]

theorem mem_colNames_setCol (t : PTable) (c n : String) (v : List Cell)
    (h : n ∈ colNames (setCol t c v)) : n = c ∨ n ∈ colNames t := by
  unfold setCol colNames at h
  by_cases ha : t.cols.any (fun p => decide (p.1 = c)) = true
  · rw [if_pos ha] at h
    rw [List.map_map] at h
    obtain ⟨p, hp, heq⟩ := List.mem_map.mp h
    simp only [Function.comp] at heq
    by_cases hp2 : p.1 = c
    · rw [if_pos hp2] at heq
      exact Or.inl heq.symm
    · rw [if_neg hp2] at heq
      exact Or.inr (List.mem_map.mpr ⟨p, hp, heq⟩)
  · rw [if_neg ha] at h
    rw [List.map_append] at h
    rcases List.mem_append.mp h with h1 | h1
    · exact Or.inr h1
    · simp at h1
      exact Or.inl h1

theorem mapCells_ok_length {f : Cell → Except PyErr Cell} :
    ∀ (xs ys : List Cell), mapCells f xs = Except.ok ys → ys.length = xs.length := by
  intro xs
  induction xs with
  | nil =>
    intro ys h
    simp only [mapCells] at h
    injection h with h2
    rw [← h2]
  | cons c cs ih =>
    intro ys h
    simp only [mapCells] at h
    cases hf : f c with
    | error e => rw [hf] at h; exact Except.noConfusion h
    | ok c2 =>
      rw [hf] at h
      cases hm : mapCells f cs with
      | error e => rw [hm] at h; exact Except.noConfusion h
      | ok cs2 =>
        rw [hm] at h
        injection h with h2
        rw [← h2]
        simp [ih cs2 hm]

theorem mapCells_ok_get {f : Cell → Except PyErr Cell} :
    ∀ (xs ys : List Cell), mapCells f xs = Except.ok ys →
      ∀ (i : Nat) (x : Cell), xs.get? i = some x →
        ∃ y, f x = Except.ok y ∧ ys.get? i = some y := by
  intro xs
  induction xs with
  | nil =>
    intro ys h i x hx
    simp at hx
  | cons c cs ih =>
    intro ys h i x hx
    simp only [mapCells] at h
    cases hf : f c with
    | error e => rw [hf] at h; exact Except.noConfusion h
    | ok c2 =>
      rw [hf] at h
      cases hm : mapCells f cs with
      | error e => rw [hm] at h; exact Except.noConfusion h
      | ok cs2 =>
        rw [hm] at h
        injection h with h2
        subst h2
        cases i with
        | zero =>
          simp only [List.get?_cons_zero] at hx
          injection hx with hx2
          subst hx2
          exact ⟨c2, hf, rfl⟩
        | succ j =>
          simp only [List.get?_cons_succ] at hx ⊢
          exact ih cs2 hm j x hx

theorem mapCells_toDatetime_error (pd : String → Option Int) :
    ∀ (l : List Cell) (e : PyErr), mapCells (toDatetimeCell pd) l = Except.error e →
      e = PyErr.parseError ∧ ∃ c ∈ l, badDate pd c = true := by
  intro l
  induction l with
  | nil =>
    intro e h
    simp only [mapCells] at h
    exact Except.noConfusion h
  | cons c cs ih =>
    intro e h
    simp only [mapCells] at h
    cases hf : toDatetimeCell pd c with
    | error e2 =>
      rw [hf] at h
      injection h with h2
      subst h2
      cases c with
      | str s =>
        simp only [toDatetimeCell] at hf
        cases hp : pd s with
        | none =>
          rw [hp] at hf
          injection hf with h3
          exact ⟨h3.symm, Cell.str s, List.mem_cons_self _ _, by simp [badDate, hp]⟩
        | some t => rw [hp] at hf; exact Except.noConfusion hf
      | num q => exact Except.noConfusion hf
      | ts t => exact Except.noConfusion hf
      | na => exact Except.noConfusion hf
    | ok c2 =>
      rw [hf] at h
      cases hm : mapCells (toDatetimeCell pd) cs with
      | error e2 =>
        rw [hm] at h
        injection h with h2
        subst h2
        obtain ⟨he, cc, hcc, hbad⟩ := ih e2 hm
        exact ⟨he, cc, List.mem_cons_of_mem c hcc, hbad⟩
      | ok cs2 => rw [hm] at h; exact Except.noConfusion h

theorem toDatetimeCell_ok_of_not_bad (pd : String → Option Int) (c : Cell)
    (h : badDate pd c = false) : ∃ y, toDatetimeCell pd c = Except.ok y := by
  cases c with
  | str s =>
    simp only [badDate] at h
    cases hp : pd s with
    | none => rw [hp] at h; simp at h
    | some t => exact ⟨Cell.ts t, by simp [toDatetimeCell, hp]⟩
  | num q => exact ⟨_, rfl⟩
  | ts t => exact ⟨_, rfl⟩
  | na => exact ⟨_, rfl⟩

theorem mapCells_toDatetime_bad (pd : String → Option Int) :
    ∀ l : List Cell, (∃ c ∈ l, badDate pd c = true) →
      mapCells (toDatetimeCell pd) l = Except.error PyErr.parseError := by
  intro l
  induction l with
  | nil =>
    intro h
    obtain ⟨c, hc, _⟩ := h
    simp at hc
  | cons c cs ih =>
    intro h
    by_cases hb : badDate pd c = true
    · cases c with
      | str s =>
        simp only [badDate] at hb
        cases hp : pd s with
        | some t => rw [hp] at hb; simp at hb
        | none => simp [mapCells, toDatetimeCell, hp]
      | num q => simp [badDate] at hb
      | ts t => simp [badDate] at hb
      | na => simp [badDate] at hb
    · obtain ⟨c2, hc2, hbad2⟩ := h
      rcases List.mem_cons.mp hc2 with h1 | h1
      · subst h1
        exact absurd hbad2 hb
      · have hrec := ih ⟨c2, h1, hbad2⟩
        obtain ⟨y, hy⟩ := toDatetimeCell_ok_of_not_bad pd c (by simpa using hb)
        simp [mapCells, hy, hrec]

theorem mapCells_sqft_error :
    ∀ (l : List Cell) (e : PyErr), mapCells sqftCell l = Except.error e →
      e = PyErr.typeError := by
  intro l
  induction l with
  | nil =>
    intro e h
    simp only [mapCells] at h
    exact Except.noConfusion h
  | cons c cs ih =>
    intro e h
    simp only [mapCells] at h
    cases hf : sqftCell c with
    | error e2 =>
      rw [hf] at h
      injection h with h2
      subst h2
      cases c with
      | str s =>
        injection hf with h3
        exact h3.symm
      | ts t =>
        injection hf with h3
        exact h3.symm
      | num q => exact Except.noConfusion hf
      | na => exact Except.noConfusion hf
    | ok c2 =>
      rw [hf] at h
      cases hm : mapCells sqftCell cs with
      | error e2 =>
        rw [hm] at h
        injection h with h2
        subst h2
        exact ih e2 hm
      | ok cs2 => rw [hm] at h; exact Except.noConfusion h

theorem loadStep2_ok (pd : String → Option Int) (t u : PTable)
    (h : loadStep2 pd t = Except.ok u) :
    ∃ rc rc2, getCol t "reg_date" = some rc ∧
      mapCells (toDatetimeCell pd) rc = Except.ok rc2 ∧ u = setCol t "reg_date" rc2 := by
  unfold loadStep2 at h
  split at h
  · exact Except.noConfusion h
  · rename_i rc hg
    split at h
    · exact Except.noConfusion h
    · rename_i rc2 hm
      injection h with h2
      exact ⟨rc, rc2, hg, hm, h2.symm⟩

theorem loadStep3_ok (t u : PTable) (h : loadStep3 t = Except.ok u) :
    ∃ sc sc2, getCol t "size_sqmt" = some sc ∧
      mapCells sqftCell sc = Except.ok sc2 ∧ u = setCol t "size_sqft" sc2 := by
  unfold loadStep3 at h
  split at h
  · exact Except.noConfusion h
  · rename_i sc hg
    split at h
    · exact Except.noConfusion h
    · rename_i sc2 hm
      injection h with h2
      exact ⟨sc, sc2, hg, hm, h2.symm⟩

theorem load_ok_some (pd : String → Option Int) (raw t : PTable)
    (h : load_and_clean_data pd (some raw) = Except.ok (some t)) :
    ∃ df2, loadStep2 pd (renameCols raw) = Except.ok df2 ∧ loadStep3 df2 = Except.ok t := by
  simp only [load_and_clean_data] at h
  split at h
  · exact Except.noConfusion h
  · rename_i df2 h2
    split at h
    · exact Except.noConfusion h
    · rename_i df3 h3
      injection h with h4
      injection h4 with h5
      exact ⟨df2, h2, h5 ▸ h3⟩

theorem loadStep2_parse_iff (pd : String → Option Int) (t : PTable) :
    loadStep2 pd t = Except.error PyErr.parseError ↔
      ∃ rc, getCol t "reg_date" = some rc ∧ ∃ c ∈ rc, badDate pd c = true := by
  constructor
  · intro h
    unfold loadStep2 at h
    split at h
    · injection h with h2
      exact PyErr.noConfusion h2
    · rename_i rc hg
      split at h
      · rename_i e hm
        injection h with h2
        subst h2
        obtain ⟨_, hbad⟩ := mapCells_toDatetime_error pd rc PyErr.parseError hm
        exact ⟨rc, hg, hbad⟩
      · exact Except.noConfusion h
  · rintro ⟨rc, hg, hbad⟩
    simp [loadStep2, hg, mapCells_toDatetime_bad pd rc hbad]

theorem loadStep3_not_parse (t : PTable)
    (h : loadStep3 t = Except.error PyErr.parseError) : False := by
  unfold loadStep3 at h
  split at h
  · injection h with h2
    exact PyErr.noConfusion h2
  · rename_i sc hg
    split at h
    · rename_i e hm
      injection h with h2
      subst h2
      exact PyErr.noConfusion (mapCells_sqft_error sc PyErr.parseError hm)
    · exact Except.noConfusion h

/-! The claims about the loader. -/

/-- Claim C4: after a successful load, the `size_sqft` column is the
`size_sqmt` column transformed cell by cell — every numeric size q yields
exactly `round(q * 10.76391, 2)`, missing stays missing, and entry i of the
output depends only on entry i of the input (no cross-row dependency). -/
theorem claim4_sqft_derived (pd : String → Option Int) (raw t : PTable)
    (h : load_and_clean_data pd (some raw) = Except.ok (some t)) :
    ∃ m l, getCol t "size_sqmt" = some m ∧ getCol t "size_sqft" = some l ∧
      l.length = m.length ∧
      (∀ (i : Nat) (q : ℚ), m.get? i = some (Cell.num q) →
        l.get? i = some (Cell.num (pyRound2 (q * sqftFactor)))) ∧
      (∀ i : Nat, m.get? i = some Cell.na → l.get? i = some Cell.na) := by
  obtain ⟨df2, h2, h3⟩ := load_ok_some pd raw t h
  obtain ⟨sc, sc2, hsc, hmap, ht⟩ := loadStep3_ok df2 t h3
  subst ht
  refine ⟨sc, sc2, ?_, ?_, ?_, ?_, ?_⟩
  · rw [getCol_setCol_ne df2 "size_sqft" "size_sqmt" sc2 (by decide)]
    exact hsc
  · exact getCol_setCol_self df2 "size_sqft" sc2
  · exact mapCells_ok_length sc sc2 hmap
  · intro i q hq
    obtain ⟨y, hy, hys⟩ := mapCells_ok_get sc sc2 hmap i (Cell.num q) hq
    have hyv : y = Cell.num (pyRound2 (mulFactor q)) := by
      injection hy with h5
      exact h5.symm
    rw [hyv, mulFactor_eq_mul] at hys
    exact hys
  · intro i hna
    obtain ⟨y, hy, hys⟩ := mapCells_ok_get sc sc2 hmap i Cell.na hna
    have hyv : y = Cell.na := by
      injection hy with h5
      exact h5.symm
    rw [hyv] at hys
    exact hys

/-- Witness for C4 on the concrete raw table with one 100 square-metre
row. -/
theorem claim4_witness :
    ∃ m l, getCol tOk "size_sqmt" = some m ∧ getCol tOk "size_sqft" = some l ∧
      l.length = m.length ∧
      (∀ (i : Nat) (q : ℚ), m.get? i = some (Cell.num q) →
        l.get? i = some (Cell.num (pyRound2 (q * sqftFactor)))) ∧
      (∀ i : Nat, m.get? i = some Cell.na → l.get? i = some Cell.na) :=
  claim4_sqft_derived pd0 rawOk tOk (by rfl)

/-- Counterexample to C7 as stated: a raw table lacking the Regis column
makes the loader raise a KeyError instead of succeeding, because the date
step reads `df['reg_date']` unconditionally. -/
theorem claim7_counterexample :
    load_and_clean_data pd0 (some rawNoReg) = Except.error (PyErr.keyError "reg_date") := by
  rfl

/-- Claim C7 (amended): the rename itself tolerates absent source columns —
after a successful load, any name that is neither among the renamed raw
columns nor the derived `size_sqft` is absent from the canonical table;
but a raw table whose renamed form lacks `reg_date` (source Regis) fails
with a KeyError, as does one lacking `size_sqmt` (source Size) once the
date step has succeeded. -/
theorem claim7_missing_columns (pd : String → Option Int) (raw t : PTable) (n : String) :
    (load_and_clean_data pd (some raw) = Except.ok (some t) →
      n ∉ colNames (renameCols raw) → n ≠ "size_sqft" → getCol t n = none) ∧
    ("reg_date" ∉ colNames (renameCols raw) →
      load_and_clean_data pd (some raw) = Except.error (PyErr.keyError "reg_date")) ∧
    (loadStep2 pd (renameCols raw) = Except.ok t → "size_sqmt" ∉ colNames t →
      load_and_clean_data pd (some raw) = Except.error (PyErr.keyError "size_sqmt")) := by
  refine ⟨?_, ?_, ?_⟩
  · intro h hn hnsq
    obtain ⟨df2, h2, h3⟩ := load_ok_some pd raw t h
    obtain ⟨rc, rc2, hrc, hmaprc, hdf2⟩ := loadStep2_ok pd (renameCols raw) df2 h2
    obtain ⟨sc, sc2, hsc, hmapsc, ht⟩ := loadStep3_ok df2 t h3
    subst hdf2
    subst ht
    apply getCol_eq_none_of_not_mem
    intro hmem
    rcases mem_colNames_setCol _ _ _ _ hmem with h4 | h4
    · exact hnsq h4
    · rcases mem_colNames_setCol _ _ _ _ h4 with h5 | h5
      · apply hn
        rw [h5]
        exact getCol_some_mem _ _ _ hrc
      · exact hn h5
  · intro h
    have hg : getCol (renameCols raw) "reg_date" = none :=
      getCol_eq_none_of_not_mem _ _ h
    simp [load_and_clean_data, loadStep2, hg]
  · intro h2 hnm
    have hg : getCol t "size_sqmt" = none := getCol_eq_none_of_not_mem _ _ hnm
    simp [load_and_clean_data, h2, loadStep3, hg]

/-- Witness for C7 (amended): the Mobile column is absent from the concrete
raw table, and the canonical table indeed has no `mobile` column. -/
theorem claim7_witness : getCol tOk "mobile" = none :=
  (claim7_missing_columns pd0 rawOk tOk "mobile").1 (by rfl) (by decide) (by decide)

/-- Claim C8: the loader signals the file-missing case (Python returns
None, the spec's LoadError) exactly when the source cannot be opened, and
raises the date ParseError exactly when the renamed table has a
registration-date column containing an unparseable date string; in either
case no canonical table is produced. -/
theorem claim8_load_parse_errors (pd : String → Option Int) (src : Option PTable) :
    (load_and_clean_data pd src = Except.ok none ↔ src = none) ∧
    (load_and_clean_data pd src = Except.error PyErr.parseError ↔
      ∃ raw rc, src = some raw ∧ getCol (renameCols raw) "reg_date" = some rc ∧
        ∃ c ∈ rc, badDate pd c = true) ∧
    (∀ t : PTable, src = none ∨ load_and_clean_data pd src = Except.error PyErr.parseError →
      load_and_clean_data pd src ≠ Except.ok (some t)) := by
  refine ⟨?_, ?_, ?_⟩
  · cases src with
    | none => simp [load_and_clean_data]
    | some raw =>
      simp only [load_and_clean_data]
      constructor
      · intro h
        split at h
        · exact Except.noConfusion h
        · split at h
          · exact Except.noConfusion h
          · injection h with h2
            exact Option.noConfusion h2
      · intro h
        exact Option.noConfusion h
  · cases src with
    | none =>
      constructor
      · intro h
        simp only [load_and_clean_data] at h
        exact Except.noConfusion h
      · rintro ⟨raw, rc, hsr, _, _⟩
        exact Option.noConfusion hsr
    | some raw =>
      constructor
      · intro h
        simp only [load_and_clean_data] at h
        split at h
        · rename_i e h2
          injection h with h3
          subst h3
          obtain ⟨rc, hg, hbad⟩ := (loadStep2_parse_iff pd (renameCols raw)).mp h2
          exact ⟨raw, rc, rfl, hg, hbad⟩
        · rename_i df2 h2
          split at h
          · rename_i e h3
            injection h with h4
            subst h4
            exact absurd h3 (fun hx => loadStep3_not_parse df2 hx)
          · exact Except.noConfusion h
      · rintro ⟨raw2, rc, hsr, hg, hbad⟩
        injection hsr with hsr2
        subst hsr2
        have h2 := (loadStep2_parse_iff pd (renameCols raw)).mpr ⟨rc, hg, hbad⟩
        simp [load_and_clean_data, h2]
  · intro t hcase hok
    rcases hcase with h1 | h1
    · subst h1
      simp only [load_and_clean_data] at hok
      injection hok with h2
      exact Option.noConfusion h2
    · rw [h1] at hok
      exact Except.noConfusion hok

/-- Witness for C8: an absent source file yields the None signal. -/
theorem claim8_witness : load_and_clean_data pd0 none = Except.ok none :=
  (claim8_load_parse_errors pd0 none).1.mpr rfl

end UAE
